import Mathlib

/-!
Verification of the JSON Automator spreadsheet-to-JSON converter
(`src/main.py`).  The development shallowly embeds the schema-driven
conversion path (the `convert` function: alias resolution, per-row rule
engine, type coercion, dot-path nesting, diagnostics accumulation and the
terminal success/failure shape) together with the legacy row parser
`parse_excel_to_json`.  Python string and integer primitives are embedded
as structurally recursive functions over character lists so that every
definition evaluates inside the kernel.
-/

set_option maxRecDepth 4000

namespace JsonAutomator

/-- A JSON-like value as the Python code handles it.  Spreadsheet cells are
None, strings, numbers or booleans (openpyxl); schema-declared defaults may
additionally be JSON objects.  Numbers are modelled as integers: the
conversion logic never performs float arithmetic and floats are outside the
spec's scope. -/
inductive JValue where
  | null
  | str (s : String)
  | int (n : Int)
  | bool (b : Bool)
  | obj (entries : List (String × JValue))

/-- A spreadsheet row: the Python dict from header name to cell value,
modelled as an association list in insertion order (Python dicts preserve
insertion order and have unique keys). -/
abbrev Row := List (String × JValue)

/- ### Python primitives -/

/-- Python str.strip(): drop leading and trailing whitespace. -/
def pyStrip (s : String) : String :=
  String.mk (((s.toList.dropWhile Char.isWhitespace).reverse.dropWhile Char.isWhitespace).reverse)

/-- Python str.lower() (ASCII case folding, as the code only compares
ASCII literals). -/
def pyLower (s : String) : String :=
  String.mk (s.toList.map Char.toLower)

/-- Python str.startswith(prefix). -/
def pyStartsWith (s p : String) : Bool :=
  p.toList.isPrefixOf s.toList

/-- Python str() of a value.  str(None) is "None", booleans render
capitalised, integers in decimal.  For dict values Python renders the
repr; its exact text never influences this program (every comparison is
against boolean literals, emptiness, or an http prefix, and a dict repr
always begins with a brace and is non-empty), so we render a fixed brace
skeleton. -/
def pyStr : JValue → String
  | .null => "None"
  | .str s => s
  | .int n => toString n
  | .bool b => if b then "True" else "False"
  | .obj _ => "\x7b...\x7d"

/-- Python truthiness, used by the code in the test "if not raw_key". -/
def pyTruthy : JValue → Bool
  | .null => false
  | .str s => !(s == "")
  | .int n => !(n == 0)
  | .bool b => b
  | .obj es => !es.isEmpty

/-- Python int(...) applied to a string: optional sign, then decimal
digits, surrounding whitespace allowed (digit-group underscores, accepted
by CPython, are not modelled; no input in this development uses them). -/
def parsePyInt (s : String) : Option Int :=
  let cs := (pyStrip s).toList
  let signed : Bool × List Char :=
    match cs with
    | c :: rest => if c = '-' then (true, rest) else if c = '+' then (false, rest) else (false, cs)
    | [] => (false, [])
  if signed.2 ≠ [] ∧ signed.2.all Char.isDigit then
    let n : Nat := signed.2.foldl (fun acc c => acc * 10 + (c.toNat - 48)) 0
    some (if signed.1 then -(n : Int) else (n : Int))
  else none

/-- Python int(val) on a cell value: ints pass through, booleans become
1/0, strings are parsed, anything else (None, dict) raises, which the code
catches; we return none for the raising cases. -/
def pyInt : JValue → Option Int
  | .int n => some n
  | .bool b => some (if b then 1 else 0)
  | .str s => parsePyInt s
  | _ => none

/- ### Association-list (Python dict) operations -/

/-- Python dict lookup: first (= only, for a real dict) binding of the key. -/
def alistGet {α : Type} : List (String × α) → String → Option α
  | [], _ => none
  | (k2, v) :: rest, k => if k2 = k then some v else alistGet rest k

/-- Python dict assignment d[k] = v: update in place if the key is
present, append otherwise (Python dicts keep the original position of an
updated key). -/
def alistSet {α : Type} : List (String × α) → String → α → List (String × α)
  | [], k, v => [(k, v)]
  | (k2, v2) :: rest, k, v =>
    if k2 = k then (k, v) :: rest else (k2, v2) :: alistSet rest k v

/-- dict.get(k, d). -/
def rowGetD (row : Row) (k : String) (d : JValue) : JValue :=
  (alistGet row k).getD d

/- ### Dot-path splitting and nested assignment (main.py 543-550) -/

/-- Helper for splitting on the dot character. -/
def splitDotsAux : List Char → List Char → List String
  | [], acc => [String.mk acc.reverse]
  | c :: cs, acc =>
    if c = '.' then String.mk acc.reverse :: splitDotsAux cs [] else splitDotsAux cs (c :: acc)

/-- Python dotted.split("."): always returns at least one piece. -/
def splitDots (s : String) : List String :=
  splitDotsAux s.toList []

/-- Recursive core of set_nested: walk/create dict levels for all but the
last path segment (replacing a non-dict value by a fresh dict), assign at
the last segment. -/
def setNestedGo : List (String × JValue) → List String → JValue → List (String × JValue)
  | d, [], _ => d
  | d, [p], v => alistSet d p v
  | d, p :: p2 :: rest, v =>
    let child : List (String × JValue) :=
      match alistGet d p with
      | some (.obj es) => es
      | _ => []
    alistSet d p (.obj (setNestedGo child (p2 :: rest) v))

/-- main.py set_nested(dct, dotted, val). -/
def set_nested (d : List (String × JValue)) (dotted : String) (v : JValue) : List (String × JValue) :=
  setNestedGo d (splitDots dotted) v

/-- Observer (not in the source): read a value back along a dot path, for
stating what the nested output contains. -/
def getNestedGo : List (String × JValue) → List String → Option JValue
  | _, [] => none
  | d, [p] => alistGet d p
  | d, p :: p2 :: rest =>
    match alistGet d p with
    | some (.obj es) => getNestedGo es (p2 :: rest)
    | _ => none

/-- Observer: lookup along a dotted path in the final config. -/
def get_nested (d : List (String × JValue)) (dotted : String) : Option JValue :=
  getNestedGo d (splitDots dotted)

/- ### Diagnostics (main.py appends English strings to result["messages"];
each constructor stands for one message template together with the data
interpolated into it) -/

/-- One diagnostic message.  Constructor-to-message mapping:
emptyKey: "Row i: The 'key' cell is empty — this row was ignored. ..." (563);
missingRequired: "Row i: Missing required value for 'k'. ..." (581);
intExpected: "Row i: 'k' expects an integer. Example: 0, 10, 300." (525);
boolExpected: "Row i: 'k' expects a boolean. Use true/false or yes/no." (533);
urlExpected: "Row i: 'k' expects a URL starting with http:// or https://." (538);
duplicateKey: "Row i: Duplicate key 'k' — the later value overwrote the earlier one. ..." (589);
notInSchema: "Row i: Key 'k' is not defined in the schema. It was ignored ..." (594);
schemaRequiredMissing: "Schema required key missing: 'k'. ..." (603). -/
inductive Diag where
  | emptyKey (rowIdx : Nat)
  | missingRequired (rowIdx : Nat) (key : String)
  | intExpected (rowIdx : Nat) (key : String)
  | boolExpected (rowIdx : Nat) (key : String)
  | urlExpected (rowIdx : Nat) (key : String)
  | duplicateKey (rowIdx : Nat) (key : String)
  | notInSchema (rowIdx : Nat) (key : String)
  | schemaRequiredMissing (key : String)
deriving DecidableEq

/-- Is this the duplicate-key diagnostic? -/
def Diag.isDuplicate : Diag → Bool
  | .duplicateKey _ _ => true
  | _ => false

/-- Is this the key-not-defined-in-schema diagnostic? -/
def Diag.isNotInSchema : Diag → Bool
  | .notInSchema _ _ => true
  | _ => false

/-- Is this the missing-required-value diagnostic? -/
def Diag.isMissingRequired : Diag → Bool
  | .missingRequired _ _ => true
  | _ => false

/-- Does the diagnostic's text name the given key? -/
def Diag.mentions (k : String) : Diag → Bool
  | .emptyKey _ => false
  | .missingRequired _ k2 => k2 == k
  | .intExpected _ k2 => k2 == k
  | .boolExpected _ k2 => k2 == k
  | .urlExpected _ k2 => k2 == k
  | .duplicateKey _ k2 => k2 == k
  | .notInSchema _ k2 => k2 == k
  | .schemaRequiredMissing k2 => k2 == k

/- ### Schema document (spec section 3; main.py 476-516) -/

/-- One entry of schema["keys"]: the per-key rule.  Fields are modelled at
the JSON types the schema contract declares (required: bool, type: string,
default: any JSON value, aliases: list of strings); bool() on a bool and
str() on a string, which the code applies, are identities. -/
structure Rule where
  required : Bool := false
  type? : Option String := none
  default? : Option JValue := none
  aliases : List String := []

/-- The schema document after the shape checks of main.py 476-481:
columns (canonical header -> alias list), keys (canonical key -> rule),
allow_extra_keys (bool(schema.get("allow_extra_keys", False))). -/
structure Schema where
  columns : List (String × List String) := []
  keys : List (String × Rule) := []
  allow_extra_keys : Bool := false

/-- main.py 510-514: alias_to_key, mapping each declared key alias to its
canonical key (last declaration wins on collision; canonical keys get no
entry of their own). -/
def buildAliasToKey (keyRules : List (String × Rule)) : List (String × String) :=
  keyRules.foldl (fun acc kr => kr.2.aliases.foldl (fun acc2 a => alistSet acc2 a kr.1) acc) []

/-- main.py 567: alias_to_key.get(key_name, key_name). -/
def resolveKey (aliasToKey : List (String × String)) (k : String) : String :=
  (alistGet aliasToKey k).getD k

/-- main.py 484-489: alias_map for headers (each alias -> canonical, then
the canonical mapped to itself). -/
def buildAliasMap (columns : List (String × List String)) : List (String × String) :=
  columns.foldl (fun am c => alistSet (c.2.foldl (fun m a => alistSet m a c.1) am) c.1 c.1) []

/-- main.py 492-506: header normalization of one sheet.  The header map is
built from the first row's keys; every row is rebuilt with normalized
header names. -/
def normalizeRows (aliasMap : List (String × String)) (rows : List Row) : List Row :=
  match rows with
  | [] => []
  | r0 :: _ =>
    let headerMap := r0.foldl (fun m kv => alistSet m kv.1 ((alistGet aliasMap kv.1).getD kv.1)) []
    rows.map (fun r => r.foldl (fun nr kv => alistSet nr ((alistGet headerMap kv.1).getD kv.1) kv.2) [])

/-- main.py 492-506 over all sheets. -/
def normalize_sheets (columns : List (String × List String)) (sheets : List (String × List Row)) :
    List (String × List Row) :=
  sheets.map (fun s => (s.1, normalizeRows (buildAliasMap columns) s.2))

/- ### Type coercion (main.py 519-540) -/

/-- main.py convert_type(val, expected, row_idx, key): returns the
converted value and the diagnostics it appends to result["messages"]. -/
def convert_type (val : JValue) (expected : String) (rowIdx : Nat) (key : String) :
    JValue × List Diag :=
  let t := pyLower (if expected == "" then "string" else expected)
  if t == "int" then
    match pyInt val with
    | some n => (.int n, [])
    | none => (val, [.intExpected rowIdx key])
  else if t == "bool" then
    let s := pyLower (pyStrip (pyStr val))
    if s == "true" || s == "1" || s == "yes" then (.bool true, [])
    else if s == "false" || s == "0" || s == "no" then (.bool false, [])
    else (val, [.boolExpected rowIdx key])
  else if t == "url" then
    if pyStartsWith (pyStr val) "http://" || pyStartsWith (pyStr val) "https://" then (val, [])
    else (val, [.urlExpected rowIdx key])
  else (val, [])

/- ### Row rule engine (main.py 553-598) -/

/-- Accumulated state of one conversion: final_config, seen_keys (a set,
modelled as a duplicate-free insertion list) and result["messages"]. -/
structure ConvState where
  config : List (String × JValue)
  seen : List String
  messages : List Diag

/-- Python set.add. -/
def seenAdd (s : List String) (k : String) : List String :=
  if s.contains k then s else k :: s

/-- main.py 571-573: required from the Excel cell or the schema rule. -/
def requiredOf (rule : Rule) (row : Row) : Bool :=
  (pyLower (pyStrip (pyStr (rowGetD row "required" (.str "")))) == "yes") || rule.required

/-- main.py 576-577: the row's value after substituting the schema default
when the cell is empty (None or blank after str().strip()). -/
def isEmptyVal (v : JValue) : Bool :=
  (match v with | .null => true | _ => false) || pyStrip (pyStr v) == ""

/-- main.py 576-577: value = rule["default"] if the cell is empty and a
default is declared, else the cell value. -/
def effectiveValue (rule : Rule) (row : Row) : JValue :=
  let v := rowGetD row "value" .null
  match rule.default? with
  | some d => if isEmptyVal v then d else v
  | none => v

/-- main.py 584: str(rule.get("type", row.get("type", "string"))).strip().lower(). -/
def expectedTypeOf (rule : Rule) (row : Row) : String :=
  match rule.type? with
  | some t => pyLower (pyStrip t)
  | none => pyLower (pyStrip (pyStr (rowGetD row "type" (.str "string"))))

/-- main.py 558-598: process one data row.  Diagnostics are appended in
source order: missing-required, then the coercion diagnostic, then
duplicate-key, then (for undeclared keys with extras disallowed) the
not-in-schema diagnostic; the canonical key is recorded as seen before the
extra-key check, and only non-extra rows are assigned into the config. -/
def processRow (keyRules : List (String × Rule)) (aliasToKey : List (String × String))
    (allowExtra : Bool) (idx : Nat) (row : Row) (st : ConvState) : ConvState :=
  let rawKey := rowGetD row "key" .null
  if !pyTruthy rawKey || pyStrip (pyStr rawKey) == "" then
    { st with messages := st.messages ++ [Diag.emptyKey idx] }
  else
    let canonicalKey := resolveKey aliasToKey (pyStrip (pyStr rawKey))
    let rule := (alistGet keyRules canonicalKey).getD {}
    let value := effectiveValue rule row
    let reqMsgs := if requiredOf rule row && isEmptyVal value then
      [Diag.missingRequired idx canonicalKey] else []
    let tr := convert_type value (expectedTypeOf rule row) idx canonicalKey
    let dupMsgs := if st.seen.contains canonicalKey then
      [Diag.duplicateKey idx canonicalKey] else []
    let seen := seenAdd st.seen canonicalKey
    if (alistGet keyRules canonicalKey).isNone && !allowExtra then
      ⟨st.config, seen,
        st.messages ++ reqMsgs ++ tr.2 ++ dupMsgs ++ [Diag.notInSchema idx canonicalKey]⟩
    else
      ⟨set_nested st.config canonicalKey tr.1, seen,
        st.messages ++ reqMsgs ++ tr.2 ++ dupMsgs⟩

/-- main.py 558: enumerate(rows, start=2) — rows of one sheet, numbering
restarting at 2. -/
def processRowsFrom (keyRules : List (String × Rule)) (aliasToKey : List (String × String))
    (allowExtra : Bool) : Nat → List Row → ConvState → ConvState
  | _, [], st => st
  | idx, r :: rs, st =>
    processRowsFrom keyRules aliasToKey allowExtra (idx + 1) rs
      (processRow keyRules aliasToKey allowExtra idx r st)

/-- main.py 557: all sheets feed one shared state. -/
def processSheets (keyRules : List (String × Rule)) (aliasToKey : List (String × String))
    (allowExtra : Bool) (sheets : List (String × List Row)) (st : ConvState) : ConvState :=
  sheets.foldl (fun st2 s => processRowsFrom keyRules aliasToKey allowExtra 2 s.2 st2) st

/-- main.py 601-603: post-check for schema-required keys never seen. -/
def postCheckMsgs (keyRules : List (String × Rule)) (seen : List String) : List Diag :=
  keyRules.filterMap (fun kr =>
    if kr.2.required && !seen.contains kr.1 then some (Diag.schemaRequiredMissing kr.1) else none)

/- ### Conversion orchestrator, config_schema mode (main.py 552-612) -/

/-- Terminal shape of the config_schema mode: success returns the nested
data and the messages; failure (HTTP 400) returns an empty data object and
the messages. -/
inductive ConvResult where
  | success (data : List (String × JValue)) (messages : List Diag)
  | failure (data : List (String × JValue)) (messages : List Diag)

/-- The messages carried by either outcome. -/
def ConvResult.messages : ConvResult → List Diag
  | .success _ m => m
  | .failure _ m => m

/-- The state after normalizing headers and processing every row of every
sheet (main.py 484-598), before the terminal shape decision. -/
def finalStateOf (schema : Schema) (sheets : List (String × List Row)) : ConvState :=
  processSheets schema.keys (buildAliasToKey schema.keys) schema.allow_extra_keys
    (normalize_sheets schema.columns sheets) ⟨[], [], []⟩

/-- All diagnostics of one conversion: row-processing messages then the
schema post-check messages (main.py 601-603). -/
def allMessagesOf (schema : Schema) (sheets : List (String × List Row)) : List Diag :=
  (finalStateOf schema sheets).messages ++
    postCheckMsgs schema.keys (finalStateOf schema sheets).seen

/-- The config_schema conversion end to end (main.py 484-608): an empty
final config yields the failure shape with empty data, otherwise success
with the accumulated nested config; both carry the full diagnostics. -/
def convert (schema : Schema) (sheets : List (String × List Row)) : ConvResult :=
  let st := finalStateOf schema sheets
  let msgs := st.messages ++ postCheckMsgs schema.keys st.seen
  if st.config.isEmpty then .failure [] msgs else .success st.config msgs

/- ### The legacy parser parse_excel_to_json (main.py 292-315) and the
row building of the convert endpoint (main.py 441-444) -/

/-- Python "v in (None, \"\")": the all-empty-row test of main.py 312. -/
def isEmptyCell : JValue → Bool
  | .null => true
  | .str s => s == ""
  | _ => false

/-- main.py 300-309: build one row dict; headers beyond the header row get
synthetic names, and an empty cell under the "required" header is
normalized to "no". -/
def buildRowDict (headers : List String) (cells : List JValue) : Row :=
  cells.enum.foldl (fun d iv =>
    let col := headers.getD iv.1 ("col_" ++ toString iv.1)
    alistSet d col
      (if col == "required" && isEmptyVal iv.2 then .str "no" else iv.2)) []

/-- main.py 299-315: rows of the first sheet, dropping every row whose
(normalized) values are all empty. -/
def parse_excel_rows (headers : List String) (raws : List (List JValue)) : List Row :=
  (raws.map (buildRowDict headers)).filter (fun d => d.any (fun kv => !isEmptyCell kv.2))

/-- main.py 441-444 (the convert endpoint): rows are built from the header
row with no emptiness filtering (openpyxl yields rectangular rows; absent
cells are None). -/
def convertBuildRows (headers : List String) (raws : List (List JValue)) : List Row :=
  raws.map (fun r => headers.enum.foldl (fun d ih => alistSet d ih.2 (r.getD ih.1 .null)) [])

/- ### Basic lemmas about the dictionary and nesting operations -/

@[simp]
theorem alistGet_nil {α : Type} (k : String) : alistGet ([] : List (String × α)) k = none := rfl

@[simp]
theorem alistGet_cons {α : Type} (k2 : String) (v : α) (t : List (String × α)) (k : String) :
    alistGet ((k2, v) :: t) k = if k2 = k then some v else alistGet t k := rfl

theorem alistGet_alistSet_self {α : Type} (d : List (String × α)) (k : String) (v : α) :
    alistGet (alistSet d k v) k = some v := by
  induction d with
  | nil => simp [alistSet]
  | cons h t ih =>
    obtain ⟨k2, v2⟩ := h
    by_cases hk : k2 = k
    · simp [alistSet, hk]
    · simp [alistSet, hk, ih]

theorem alistSet_ne_nil {α : Type} (d : List (String × α)) (k : String) (v : α) :
    alistSet d k v ≠ [] := by
  cases d with
  | nil => simp [alistSet]
  | cons h t =>
    obtain ⟨k2, v2⟩ := h
    by_cases hk : k2 = k <;> simp [alistSet, hk]

theorem splitDotsAux_ne_nil (cs : List Char) : ∀ acc, splitDotsAux cs acc ≠ [] := by
  induction cs with
  | nil => intro acc; simp [splitDotsAux]
  | cons c cs ih =>
    intro acc
    by_cases hc : c = '.'
    · simp [splitDotsAux, hc]
    · simpa [splitDotsAux, hc] using ih (c :: acc)

theorem splitDots_ne_nil (s : String) : splitDots s ≠ [] :=
  splitDotsAux_ne_nil s.toList []

theorem getNestedGo_setNestedGo :
    ∀ (parts : List String) (d : List (String × JValue)) (v : JValue), parts ≠ [] →
      getNestedGo (setNestedGo d parts v) parts = some v := by
  intro parts
  induction parts with
  | nil => intro d v h; exact absurd rfl h
  | cons p rest ih =>
    intro d v _
    cases rest with
    | nil => simp [setNestedGo, getNestedGo, alistGet_alistSet_self]
    | cons p2 r2 =>
      simp only [setNestedGo, getNestedGo, alistGet_alistSet_self]
      exact ih _ _ (by simp)

theorem setNestedGo_ne_nil (parts : List String) (d : List (String × JValue)) (v : JValue)
    (h : parts ≠ []) : setNestedGo d parts v ≠ [] := by
  cases parts with
  | nil => exact absurd rfl h
  | cons p rest =>
    cases rest with
    | nil => exact alistSet_ne_nil d p v
    | cons p2 r2 => exact alistSet_ne_nil d p _

/-- Reading back the path just assigned yields the assigned value. -/
theorem get_set_nested (d : List (String × JValue)) (k : String) (v : JValue) :
    get_nested (set_nested d k v) k = some v :=
  getNestedGo_setNestedGo (splitDots k) d v (splitDots_ne_nil k)

theorem set_nested_ne_nil (d : List (String × JValue)) (k : String) (v : JValue) :
    set_nested d k v ≠ [] :=
  setNestedGo_ne_nil (splitDots k) d v (splitDots_ne_nil k)

/- ### Classification of the diagnostics each component can emit -/

theorem convert_type_snd_cases (v : JValue) (t : String) (i : Nat) (k : String) :
    (convert_type v t i k).2 = [] ∨ (convert_type v t i k).2 = [Diag.intExpected i k] ∨
    (convert_type v t i k).2 = [Diag.boolExpected i k] ∨
    (convert_type v t i k).2 = [Diag.urlExpected i k] := by
  simp only [convert_type]
  rcases hp : pyInt v with _ | n <;> split_ifs <;> simp

theorem convert_type_msgs (v : JValue) (t : String) (i : Nat) (k : String) :
    ∀ m ∈ (convert_type v t i k).2,
      m = Diag.intExpected i k ∨ m = Diag.boolExpected i k ∨ m = Diag.urlExpected i k := by
  intro m hm
  rcases convert_type_snd_cases v t i k with h | h | h | h <;> rw [h] at hm <;> simp_all

theorem convert_type_msgs_not_dup (v : JValue) (t : String) (i : Nat) (k : String) :
    ∀ m ∈ (convert_type v t i k).2,
      m.isDuplicate = false ∧ m.isNotInSchema = false ∧ m.isMissingRequired = false := by
  intro m hm
  rcases convert_type_msgs v t i k m hm with h | h | h <;>
    simp [h, Diag.isDuplicate, Diag.isNotInSchema, Diag.isMissingRequired]

theorem postCheckMsgs_shape (kr : List (String × Rule)) (seen : List String) :
    ∀ m ∈ postCheckMsgs kr seen, ∃ k2, m = Diag.schemaRequiredMissing k2 := by
  intro m hm
  unfold postCheckMsgs at hm
  obtain ⟨a, _, ha⟩ := List.mem_filterMap.mp hm
  split at ha
  · exact ⟨a.1, by simpa using ha.symm⟩
  · exact absurd ha (by simp)

theorem postCheckMsgs_not_dup (kr : List (String × Rule)) (seen : List String) :
    ∀ m ∈ postCheckMsgs kr seen, m.isDuplicate = false := by
  intro m hm
  obtain ⟨k2, h⟩ := postCheckMsgs_shape kr seen m hm
  simp [h, Diag.isDuplicate]

/-- The int branch of convert_type, written out (definitional). -/
theorem convert_type_int (v : JValue) (i : Nat) (k : String) :
    convert_type v "int" i k =
      (match pyInt v with
       | some n => (JValue.int n, [])
       | none => (v, [Diag.intExpected i k])) := rfl

/- ### Claim C4 -/

/-- Claim C4 counterexample: for the boolean cell value True, the claimed
"integer parse of the value's string form" fails (int("True") raises in
Python), so the claim predicts the integer-example diagnostic and the
original value; the code instead applies int() to the value itself,
silently converting True to 1 with no diagnostic. -/
theorem claim_C4_counterexample :
    parsePyInt (pyStr (JValue.bool true)) = none ∧
    convert_type (JValue.bool true) "int" 2 "use_cache" = (JValue.int 1, []) :=
  ⟨rfl, rfl⟩

/-- Claim C4 (amended): under declared type int, coercion applies Python
int() to the value itself — integers pass through, booleans become 1/0,
strings are parsed from their text — and exactly when that conversion
fails (None, unparseable string, object) it emits the integer-example
diagnostic and returns the original value unconverted.  The function is
total, so the coercion never raises; it returns a value for every row, so
no row is dropped by coercion. -/
theorem claim_C4_int_coercion :
    ∀ (v : JValue) (i : Nat) (k : String),
      (∃ n, pyInt v = some n ∧ convert_type v "int" i k = (JValue.int n, [])) ∨
      (pyInt v = none ∧ convert_type v "int" i k = (v, [Diag.intExpected i k])) := by
  intro v i k
  cases hp : pyInt v with
  | some n => exact Or.inl ⟨n, rfl, by rw [convert_type_int, hp]⟩
  | none => exact Or.inr ⟨rfl, by rw [convert_type_int, hp]⟩

/- ### Claim C7 -/

/-- Claim C7: coercion is the identity, with no diagnostic, on values
already of the declared type — an integer under type int, a boolean under
type bool, an http(s)-prefixed string under type url, and any value under
type string or under an unknown type name. -/
theorem claim_C7_idempotence :
    (∀ (n : Int) (i : Nat) (k : String), convert_type (JValue.int n) "int" i k = (JValue.int n, [])) ∧
    (∀ (b : Bool) (i : Nat) (k : String), convert_type (JValue.bool b) "bool" i k = (JValue.bool b, [])) ∧
    (∀ (s : String) (i : Nat) (k : String),
      (pyStartsWith s "http://" || pyStartsWith s "https://") = true →
      convert_type (JValue.str s) "url" i k = (JValue.str s, [])) ∧
    (∀ (v : JValue) (i : Nat) (k : String), convert_type v "string" i k = (v, [])) ∧
    (∀ (v : JValue) (t : String) (i : Nat) (k : String),
      pyLower t ≠ "int" → pyLower t ≠ "bool" → pyLower t ≠ "url" →
      convert_type v t i k = (v, [])) := by
  refine ⟨fun n i k => rfl, fun b i k => by cases b <;> rfl, fun s i k hs => ?_, fun v i k => rfl,
    fun v t i k h1 h2 h3 => ?_⟩
  · have e : convert_type (JValue.str s) "url" i k =
        if pyStartsWith s "http://" || pyStartsWith s "https://" then (JValue.str s, [])
        else (JValue.str s, [Diag.urlExpected i k]) := rfl
    rw [e, if_pos hs]
  · by_cases ht : t = ""
    · subst ht; rfl
    · have e : (t == "") = false := beq_eq_false_iff_ne.mpr ht
      simp [convert_type, e, h1, h2, h3]

/-- Witness for claim C7 at concrete inputs, discharging the two
hypothesis-bearing conjuncts. -/
theorem claim_C7_witness :
    ((pyStartsWith "https://api.example.com" "http://" ||
        pyStartsWith "https://api.example.com" "https://") = true ∧
      convert_type (JValue.str "https://api.example.com") "url" 2 "api_url" =
        (JValue.str "https://api.example.com", [])) ∧
    (pyLower "weird" ≠ "int" ∧ pyLower "weird" ≠ "bool" ∧ pyLower "weird" ≠ "url" ∧
      convert_type (JValue.str "x") "weird" 2 "k" = (JValue.str "x", [])) :=
  ⟨⟨by decide, claim_C7_idempotence.2.2.1 "https://api.example.com" 2 "api_url" (by decide)⟩,
   ⟨by decide, by decide, by decide,
    claim_C7_idempotence.2.2.2.2 (JValue.str "x") "weird" 2 "k" (by decide) (by decide) (by decide)⟩⟩

/- ### Claim C8 -/

/-- Claim C8: the config_schema conversion succeeds exactly when the
accumulated final config is non-empty; when it is empty after processing
all rows, the result is the failure variant carrying an empty data object
and the full diagnostics list. -/
theorem claim_C8_outcome (schema : Schema) (sheets : List (String × List Row)) :
    ((finalStateOf schema sheets).config = [] →
      convert schema sheets = ConvResult.failure [] (allMessagesOf schema sheets)) ∧
    ((finalStateOf schema sheets).config ≠ [] →
      convert schema sheets = ConvResult.success (finalStateOf schema sheets).config
        (allMessagesOf schema sheets)) := by
  have e : convert schema sheets =
      if (finalStateOf schema sheets).config.isEmpty then
        ConvResult.failure [] (allMessagesOf schema sheets)
      else ConvResult.success (finalStateOf schema sheets).config (allMessagesOf schema sheets) := rfl
  constructor
  · intro h
    rw [e, h]
    simp
  · intro h
    cases hc : (finalStateOf schema sheets).config with
    | nil => exact absurd hc h
    | cons a t => rw [e, hc]; simp

/-- Witness for claim C8: a conversion with no sheets accumulates an empty
config and lands in the failure branch with empty data. -/
theorem claim_C8_witness :
    (finalStateOf {} []).config = [] ∧ convert {} [] = ConvResult.failure [] [] :=
  ⟨rfl, (claim_C8_outcome {} []).1 rfl⟩

/- ### Rows whose first entry is the key cell -/

theorem rowGetD_key_cons (x : JValue) (rest : Row) :
    rowGetD (("key", x) :: rest) "key" .null = x := by
  simp [rowGetD, alistGet]

theorem effectiveValue_key_cons (rule : Rule) (x : JValue) (rest : Row) :
    effectiveValue rule (("key", x) :: rest) = effectiveValue rule rest := by
  unfold effectiveValue rowGetD
  simp [alistGet]

theorem requiredOf_key_cons (rule : Rule) (x : JValue) (rest : Row) :
    requiredOf rule (("key", x) :: rest) = requiredOf rule rest := by
  unfold requiredOf rowGetD
  simp [alistGet]

theorem expectedTypeOf_key_cons (rule : Rule) (x : JValue) (rest : Row) :
    expectedTypeOf rule (("key", x) :: rest) = expectedTypeOf rule rest := by
  unfold expectedTypeOf rowGetD
  cases rule.type? <;> simp [alistGet]

/- ### Claim C6 -/

/-- Claim C6 counterexample: "b" is a canonical key (declared in keys) of
the schema whose key "a" lists "b" among its aliases; alias_to_key then
maps "b" to "a", so this canonical name does not resolve to itself. -/
theorem claim_C6_counterexample :
    (alistGet [("a", ({ aliases := ["b"] } : Rule)), ("b", ({} : Rule))] "b").isSome = true ∧
    resolveKey (buildAliasToKey [("a", ({ aliases := ["b"] } : Rule)), ("b", ({} : Rule))]) "b"
      = "a" :=
  ⟨rfl, rfl⟩

/-- Claim C6 (amended): key-alias resolution returns the alias table entry
when one exists and the name unchanged otherwise, so every name without an
alias entry — every unknown name, and every canonical name not declared as
an alias of another key — resolves to itself; and a row whose raw key
resolves to canonical key c produces exactly the same processing result
(same config assignment, same diagnostics) as the same row with raw key c,
whenever c resolves to itself. -/
theorem claim_C6_alias_resolution :
    (∀ (atk : List (String × String)) (k : String),
      alistGet atk k = none → resolveKey atk k = k) ∧
    (∀ (kr : List (String × Rule)) (atk : List (String × String)) (ae : Bool) (idx : Nat)
       (st : ConvState) (a c : String) (rest : Row),
       pyStrip a = a → a ≠ "" → pyStrip c = c → c ≠ "" →
       resolveKey atk a = c → resolveKey atk c = c →
       processRow kr atk ae idx (("key", JValue.str a) :: rest) st =
         processRow kr atk ae idx (("key", JValue.str c) :: rest) st) := by
  constructor
  · intro atk k h
    unfold resolveKey
    rw [h]
    rfl
  · intro kr atk ae idx st a c rest hsa ha hsc hc hra hrc
    have hba : (a == "") = false := beq_eq_false_iff_ne.mpr ha
    have hbc : (c == "") = false := beq_eq_false_iff_ne.mpr hc
    unfold processRow
    rw [rowGetD_key_cons, rowGetD_key_cons]
    simp only [pyTruthy, pyStr, hsa, hsc, hba, hbc, hra, hrc, Bool.not_false, Bool.false_or,
      Bool.not_true, effectiveValue_key_cons, requiredOf_key_cons, expectedTypeOf_key_cons]

/-- Witness for claim C6 at concrete inputs, discharging both conjuncts'
hypotheses. -/
theorem claim_C6_witness :
    (alistGet ([("api.endpoint", "api_url")]) "timeout" = none ∧
      resolveKey [("api.endpoint", "api_url")] "timeout" = "timeout") ∧
    processRow [("api_url", {})] [("api.endpoint", "api_url")] false 2
        [("key", JValue.str "api.endpoint"), ("value", JValue.str "https://x")] ⟨[], [], []⟩ =
      processRow [("api_url", {})] [("api.endpoint", "api_url")] false 2
        [("key", JValue.str "api_url"), ("value", JValue.str "https://x")] ⟨[], [], []⟩ :=
  ⟨⟨by decide, claim_C6_alias_resolution.1 _ "timeout" (by decide)⟩,
   claim_C6_alias_resolution.2 [("api_url", {})] [("api.endpoint", "api_url")] false 2
     ⟨[], [], []⟩ "api.endpoint" "api_url" [("value", JValue.str "https://x")]
     (by decide) (by decide) (by decide) (by decide) (by decide) (by decide)⟩

/- ### A work-horse evaluation of processRow on a non-skipped row -/

/-- processRow on a row whose key cell is a clean non-empty string k:
the row is not skipped; k resolves to ck; the row either lands in the
extra-key branch (no assignment, not-in-schema diagnostic) or is assigned
into the config, with diagnostics appended in source order. -/
theorem processRow_resolved (kr : List (String × Rule)) (atk : List (String × String))
    (ae : Bool) (idx : Nat) (row : Row) (st : ConvState) (k ck : String) (rule : Rule)
    (hk : rowGetD row "key" JValue.null = JValue.str k)
    (hs : pyStrip k = k) (hne : k ≠ "")
    (hck : resolveKey atk k = ck)
    (hrule : (alistGet kr ck).getD {} = rule) :
    processRow kr atk ae idx row st =
      if (alistGet kr ck).isNone && !ae then
        ⟨st.config, seenAdd st.seen ck,
          st.messages ++
            (if requiredOf rule row && isEmptyVal (effectiveValue rule row) then
              [Diag.missingRequired idx ck] else []) ++
            (convert_type (effectiveValue rule row) (expectedTypeOf rule row) idx ck).2 ++
            (if st.seen.contains ck then [Diag.duplicateKey idx ck] else []) ++
            [Diag.notInSchema idx ck]⟩
      else
        ⟨set_nested st.config ck
            (convert_type (effectiveValue rule row) (expectedTypeOf rule row) idx ck).1,
          seenAdd st.seen ck,
          st.messages ++
            (if requiredOf rule row && isEmptyVal (effectiveValue rule row) then
              [Diag.missingRequired idx ck] else []) ++
            (convert_type (effectiveValue rule row) (expectedTypeOf rule row) idx ck).2 ++
            (if st.seen.contains ck then [Diag.duplicateKey idx ck] else [])⟩ := by
  subst hck hrule
  have hb : (k == "") = false := beq_eq_false_iff_ne.mpr hne
  unfold processRow
  rw [hk]
  simp only [pyTruthy, pyStr, hs, hb, Bool.not_false, Bool.not_true, Bool.false_or]
  rw [if_neg (by simp : ¬(false = true))]

theorem convert_type_filter_notInSchema (v : JValue) (t : String) (i : Nat) (k : String) :
    (convert_type v t i k).2.filter Diag.isNotInSchema = [] := by
  rcases convert_type_snd_cases v t i k with h | h | h | h <;> rw [h] <;> rfl

/- ### Claim C1 -/

/-- Claim C1: in config_schema mode, for a row whose value cell is empty
and whose resolved rule declares a default, the default is substituted
before the required check: with required true and a non-empty default, no
missing-required-value diagnostic is emitted for the row, and the config
holds the default (as passed through type coercion) at the canonical key. -/
theorem claim_C1_default_before_required
    (kr : List (String × Rule)) (atk : List (String × String)) (ae : Bool) (idx : Nat)
    (row : Row) (st : ConvState) (k : String) (rule : Rule) (d : JValue)
    (hk : rowGetD row "key" JValue.null = JValue.str k)
    (hs : pyStrip k = k) (hne : k ≠ "")
    (ha : alistGet atk k = none)
    (hr : alistGet kr k = some rule)
    (hreq : rule.required = true)
    (hd : rule.default? = some d)
    (hv : isEmptyVal (rowGetD row "value" JValue.null) = true)
    (hdne : isEmptyVal d = false) :
    ∃ delta,
      (processRow kr atk ae idx row st).messages = st.messages ++ delta ∧
      (∀ m ∈ delta, m.isMissingRequired = false) ∧
      get_nested (processRow kr atk ae idx row st).config k =
        some (convert_type d (expectedTypeOf rule row) idx k).1 := by
  have hck : resolveKey atk k = k := by unfold resolveKey; rw [ha]; rfl
  have hrule : (alistGet kr k).getD {} = rule := by rw [hr]; rfl
  have e := processRow_resolved kr atk ae idx row st k k rule hk hs hne hck hrule
  have hisNone : (alistGet kr k).isNone = false := by rw [hr]; rfl
  rw [hisNone, Bool.false_and, if_neg (by simp)] at e
  have hev : effectiveValue rule row = d := by
    unfold effectiveValue
    rw [hd]
    simp [hv]
  rw [hev, hdne, Bool.and_false, if_neg (by simp)] at e
  rw [e]
  refine ⟨(convert_type d (expectedTypeOf rule row) idx k).2 ++
    (if st.seen.contains k then [Diag.duplicateKey idx k] else []), ?_, ?_, ?_⟩
  · simp
  · intro m hm
    rcases List.mem_append.mp hm with h | h
    · exact (convert_type_msgs_not_dup d (expectedTypeOf rule row) idx k m h).2.2
    · rcases ite_eq_or_eq (st.seen.contains k) [Diag.duplicateKey idx k] ([] : List Diag) with
        he | he <;> rw [he] at h <;> simp_all [Diag.isMissingRequired]
  · exact get_set_nested st.config k _

/-- Witness for claim C1: key t, required with default "fallback", empty
value cell; the default survives coercion (type string) and no
missing-required diagnostic is emitted. -/
theorem claim_C1_witness :
    (rowGetD [("key", JValue.str "t"), ("value", JValue.null)] "key" JValue.null =
        JValue.str "t") ∧
    pyStrip "t" = "t" ∧ "t" ≠ "" ∧
    alistGet ([] : List (String × String)) "t" = none ∧
    alistGet [("t", ({ required := true, default? := some (JValue.str "fallback") } : Rule))] "t" =
      some { required := true, default? := some (JValue.str "fallback") } ∧
    ∃ delta,
      (processRow [("t", { required := true, default? := some (JValue.str "fallback") })] [] false 2
          [("key", JValue.str "t"), ("value", JValue.null)] ⟨[], [], []⟩).messages =
        [] ++ delta ∧
      (∀ m ∈ delta, m.isMissingRequired = false) ∧
      get_nested (processRow [("t", { required := true, default? := some (JValue.str "fallback") })]
          [] false 2 [("key", JValue.str "t"), ("value", JValue.null)] ⟨[], [], []⟩).config "t" =
        some (convert_type (JValue.str "fallback")
          (expectedTypeOf { required := true, default? := some (JValue.str "fallback") }
            [("key", JValue.str "t"), ("value", JValue.null)]) 2 "t").1 :=
  ⟨rfl, rfl, by decide, rfl, rfl,
    claim_C1_default_before_required _ _ false 2 _ ⟨[], [], []⟩ "t" _ _
      rfl rfl (by decide) rfl rfl rfl rfl rfl rfl⟩

/- ### Claim C10 -/

/-- Claim C10: coercion runs even on an empty (None) value: for a row with
a declared key whose rule has no default, a None value cell and expected
type int or bool, the corresponding type diagnostic is emitted, the
missing-required diagnostic is additionally emitted whenever the row is
required, and None is what gets assigned at the canonical key. -/
theorem claim_C10_coerce_empty
    (kr : List (String × Rule)) (atk : List (String × String)) (ae : Bool) (idx : Nat)
    (row : Row) (st : ConvState) (k : String) (rule : Rule)
    (hk : rowGetD row "key" JValue.null = JValue.str k)
    (hs : pyStrip k = k) (hne : k ≠ "")
    (ha : alistGet atk k = none)
    (hr : alistGet kr k = some rule)
    (hv : rowGetD row "value" JValue.null = JValue.null)
    (hd : rule.default? = none)
    (het : expectedTypeOf rule row = "int" ∨ expectedTypeOf rule row = "bool") :
    ((expectedTypeOf rule row = "int" →
        Diag.intExpected idx k ∈ (processRow kr atk ae idx row st).messages) ∧
     (expectedTypeOf rule row = "bool" →
        Diag.boolExpected idx k ∈ (processRow kr atk ae idx row st).messages)) ∧
    (requiredOf rule row = true →
        Diag.missingRequired idx k ∈ (processRow kr atk ae idx row st).messages) ∧
    get_nested (processRow kr atk ae idx row st).config k = some JValue.null := by
  have hck : resolveKey atk k = k := by unfold resolveKey; rw [ha]; rfl
  have hrule : (alistGet kr k).getD {} = rule := by rw [hr]; rfl
  have e := processRow_resolved kr atk ae idx row st k k rule hk hs hne hck hrule
  have hisNone : (alistGet kr k).isNone = false := by rw [hr]; rfl
  rw [hisNone, Bool.false_and, if_neg (by simp)] at e
  have hev : effectiveValue rule row = JValue.null := by
    unfold effectiveValue
    rw [hd, hv]
  rw [hev] at e
  have htr : (convert_type JValue.null (expectedTypeOf rule row) idx k).2 =
      (if expectedTypeOf rule row = "int" then [Diag.intExpected idx k]
       else [Diag.boolExpected idx k]) := by
    rcases het with h | h <;> rw [h] <;> rfl
  rw [e]
  refine ⟨⟨fun h => ?_, fun h => ?_⟩, fun h => ?_, ?_⟩
  · rw [htr, if_pos h]; simp
  · have hnotint : ¬ expectedTypeOf rule row = "int" := by
      rcases het with h2 | h2
      · exact absurd (h2 ▸ h) (by decide)
      · rw [h2]; decide
    rw [htr, if_neg hnotint]; simp
  · rw [h]
    simp [isEmptyVal, pyStr, pyStrip]
  · have h1 : (convert_type JValue.null (expectedTypeOf rule row) idx k).1 = JValue.null := by
      rcases het with h | h <;> rw [h] <;> rfl
    rw [h1]
    exact get_set_nested st.config k _

/-- Witness for claim C10: declared required int key with a None value and
no default — both diagnostics appear and null is assigned. -/
theorem claim_C10_witness :
    (rowGetD [("key", JValue.str "timeout"), ("value", JValue.null),
        ("required", JValue.str "yes")] "key" JValue.null = JValue.str "timeout") ∧
    expectedTypeOf { required := true, type? := some "int" }
        [("key", JValue.str "timeout"), ("value", JValue.null), ("required", JValue.str "yes")] =
      "int" ∧
    Diag.intExpected 2 "timeout" ∈
      (processRow [("timeout", { required := true, type? := some "int" })] [] false 2
        [("key", JValue.str "timeout"), ("value", JValue.null), ("required", JValue.str "yes")]
        ⟨[], [], []⟩).messages ∧
    Diag.missingRequired 2 "timeout" ∈
      (processRow [("timeout", { required := true, type? := some "int" })] [] false 2
        [("key", JValue.str "timeout"), ("value", JValue.null), ("required", JValue.str "yes")]
        ⟨[], [], []⟩).messages ∧
    get_nested (processRow [("timeout", { required := true, type? := some "int" })] [] false 2
        [("key", JValue.str "timeout"), ("value", JValue.null), ("required", JValue.str "yes")]
        ⟨[], [], []⟩).config "timeout" = some JValue.null := by
  have h := claim_C10_coerce_empty
    [("timeout", { required := true, type? := some "int" })] [] false 2
    [("key", JValue.str "timeout"), ("value", JValue.null), ("required", JValue.str "yes")]
    ⟨[], [], []⟩ "timeout" { required := true, type? := some "int" }
    rfl rfl (by decide) rfl rfl rfl rfl (Or.inl rfl)
  exact ⟨rfl, rfl, h.1.1 rfl, h.2.1 rfl, h.2.2⟩

theorem convert_type_filter_dup (v : JValue) (t : String) (i : Nat) (k : String) :
    (convert_type v t i k).2.filter Diag.isDuplicate = [] := by
  rcases convert_type_snd_cases v t i k with h | h | h | h <;> rw [h] <;> rfl

theorem postCheck_filter_dup (kr : List (String × Rule)) (seen : List String) :
    (postCheckMsgs kr seen).filter Diag.isDuplicate = [] :=
  List.filter_eq_nil_iff.mpr (by
    intro m hm
    simp [postCheckMsgs_not_dup kr seen m hm])

theorem filter_ite_singleton (p : Diag → Bool) (c : Prop) [Decidable c] (d : Diag)
    (hd : p d = false) : (if c then [d] else []).filter p = [] := by
  split <;> simp [hd]

/- ### Claim C3 -/

/-- Claim C3 counterexample: with allow_extra_keys false and a row whose
undeclared key is marked required with an empty value, two diagnostics
name the key — the missing-required-value one and the
not-defined-in-schema one — so "exactly one diagnostic naming that key"
fails (the exclusion from the output itself does hold: data is empty). -/
theorem claim_C3_counterexample :
    convert { keys := [("other", {})] }
        [("S", [[("key", JValue.str "extra"), ("value", JValue.null),
                 ("required", JValue.str "yes")]])] =
      ConvResult.failure [] [Diag.missingRequired 2 "extra", Diag.notInSchema 2 "extra"] ∧
    ((convert { keys := [("other", {})] }
        [("S", [[("key", JValue.str "extra"), ("value", JValue.null),
                 ("required", JValue.str "yes")]])]).messages.filter
      (Diag.mentions "extra")).length = 2 :=
  ⟨rfl, rfl⟩

/-- Claim C3 (amended): with allow_extra_keys false, a row whose canonical
key is not declared in keys contributes nothing to the config (the state's
config is unchanged by the row), and exactly one not-defined-in-schema
diagnostic naming that key is emitted for the row; diagnostics of other
kinds produced by the same row (missing required value, type mismatch,
duplicate key) may additionally name the key. -/
theorem claim_C3_extra_key_exclusion
    (kr : List (String × Rule)) (atk : List (String × String)) (idx : Nat)
    (row : Row) (st : ConvState) (k ck : String)
    (hk : rowGetD row "key" JValue.null = JValue.str k)
    (hs : pyStrip k = k) (hne : k ≠ "")
    (hck : resolveKey atk k = ck)
    (hundecl : alistGet kr ck = none) :
    (processRow kr atk false idx row st).config = st.config ∧
    ∃ delta,
      (processRow kr atk false idx row st).messages = st.messages ++ delta ∧
      delta.filter Diag.isNotInSchema = [Diag.notInSchema idx ck] := by
  have hrule : (alistGet kr ck).getD {} = ({} : Rule) := by rw [hundecl]; rfl
  have e := processRow_resolved kr atk false idx row st k ck {} hk hs hne hck hrule
  rw [hundecl] at e
  rw [if_pos (show ((none : Option Rule).isNone && !false) = true from rfl)] at e
  rw [e]
  refine ⟨rfl,
    (if requiredOf {} row && isEmptyVal (effectiveValue {} row) then
      [Diag.missingRequired idx ck] else []) ++
    (convert_type (effectiveValue {} row) (expectedTypeOf {} row) idx ck).2 ++
    (if st.seen.contains ck then [Diag.duplicateKey idx ck] else []) ++
    [Diag.notInSchema idx ck], ?_, ?_⟩
  · simp [List.append_assoc]
  · simp only [List.filter_append, convert_type_filter_notInSchema,
      filter_ite_singleton Diag.isNotInSchema _ (Diag.missingRequired idx ck) rfl,
      filter_ite_singleton Diag.isNotInSchema _ (Diag.duplicateKey idx ck) rfl]
    rfl

/-- Witness for claim C3: an undeclared key "extra" leaves the config
untouched and yields exactly one not-in-schema diagnostic. -/
theorem claim_C3_witness :
    (processRow [("other", {})] [] false 2
        [("key", JValue.str "extra"), ("value", JValue.str "v")] ⟨[], [], []⟩).config = [] ∧
    ∃ delta,
      (processRow [("other", {})] [] false 2
          [("key", JValue.str "extra"), ("value", JValue.str "v")] ⟨[], [], []⟩).messages =
        [] ++ delta ∧
      delta.filter Diag.isNotInSchema = [Diag.notInSchema 2 "extra"] :=
  claim_C3_extra_key_exclusion [("other", {})] [] 2
    [("key", JValue.str "extra"), ("value", JValue.str "v")] ⟨[], [], []⟩ "extra" "extra"
    rfl rfl (by decide) rfl rfl

/- ### Claim C2 -/

/-- Claim C2: a conversion of two data rows that resolve to the same
declared canonical key with different values succeeds with the later row's
converted value at that key, and exactly one duplicate-key diagnostic over
the whole conversion. -/
theorem claim_C2_last_write_wins
    (ks : List (String × Rule)) (ae : Bool) (a1 a2 k : String) (rule : Rule) (v1 v2 : JValue)
    (hs1 : pyStrip a1 = a1) (h1 : a1 ≠ "") (hs2 : pyStrip a2 = a2) (h2 : a2 ≠ "")
    (hr1 : resolveKey (buildAliasToKey ks) a1 = k)
    (hr2 : resolveKey (buildAliasToKey ks) a2 = k)
    (hk : alistGet ks k = some rule)
    (hv2 : isEmptyVal v2 = false)
    (hne : v1 ≠ v2) :
    ∃ data msgs,
      convert { columns := [], keys := ks, allow_extra_keys := ae }
        [("Sheet1", [[("key", JValue.str a1), ("value", v1)],
                     [("key", JValue.str a2), ("value", v2)]])] =
        ConvResult.success data msgs ∧
      get_nested data k =
        some (convert_type v2 (expectedTypeOf rule [("key", JValue.str a2), ("value", v2)]) 3 k).1 ∧
      (msgs.filter Diag.isDuplicate).length = 1 := by
  have hrule : (alistGet ks k).getD {} = rule := by rw [hk]; rfl
  have hnone : (alistGet ks k).isNone = false := by rw [hk]; rfl
  have e1 := fun (st : ConvState) => processRow_resolved ks (buildAliasToKey ks) ae 2
    [("key", JValue.str a1), ("value", v1)] st a1 k rule rfl hs1 h1 hr1 hrule
  have e2 := fun (st : ConvState) => processRow_resolved ks (buildAliasToKey ks) ae 3
    [("key", JValue.str a2), ("value", v2)] st a2 k rule rfl hs2 h2 hr2 hrule
  have hfs : finalStateOf { columns := [], keys := ks, allow_extra_keys := ae }
      [("Sheet1", [[("key", JValue.str a1), ("value", v1)],
                   [("key", JValue.str a2), ("value", v2)]])] =
      processRow ks (buildAliasToKey ks) ae 3 [("key", JValue.str a2), ("value", v2)]
        (processRow ks (buildAliasToKey ks) ae 2 [("key", JValue.str a1), ("value", v1)]
          ⟨[], [], []⟩) := rfl
  rw [e1, e2] at hfs
  rw [hnone] at hfs
  simp only [Bool.false_and, Bool.false_eq_true, if_false] at hfs
  dsimp only at hfs
  rw [show seenAdd ([] : List String) k = [k] from rfl,
    show (([] : List String).contains k) = false from rfl,
    (by simp : (([k] : List String).contains k) = true)] at hfs
  simp only [Bool.false_eq_true, if_false, if_true, List.nil_append] at hfs
  have hev2 : effectiveValue rule [("key", JValue.str a2), ("value", v2)] = v2 := by
    unfold effectiveValue
    cases hd : rule.default? <;> simp [rowGetD, alistGet, hv2]
  rw [hev2] at hfs
  have hconv : convert { columns := [], keys := ks, allow_extra_keys := ae }
      [("Sheet1", [[("key", JValue.str a1), ("value", v1)],
                   [("key", JValue.str a2), ("value", v2)]])] =
      if (finalStateOf { columns := [], keys := ks, allow_extra_keys := ae }
          [("Sheet1", [[("key", JValue.str a1), ("value", v1)],
                       [("key", JValue.str a2), ("value", v2)]])]).config.isEmpty then
        ConvResult.failure [] (allMessagesOf { columns := [], keys := ks, allow_extra_keys := ae }
          [("Sheet1", [[("key", JValue.str a1), ("value", v1)],
                       [("key", JValue.str a2), ("value", v2)]])])
      else
        ConvResult.success
          (finalStateOf { columns := [], keys := ks, allow_extra_keys := ae }
            [("Sheet1", [[("key", JValue.str a1), ("value", v1)],
                         [("key", JValue.str a2), ("value", v2)]])]).config
          (allMessagesOf { columns := [], keys := ks, allow_extra_keys := ae }
            [("Sheet1", [[("key", JValue.str a1), ("value", v1)],
                         [("key", JValue.str a2), ("value", v2)]])]) := rfl
  have hmsgs : allMessagesOf { columns := [], keys := ks, allow_extra_keys := ae }
      [("Sheet1", [[("key", JValue.str a1), ("value", v1)],
                   [("key", JValue.str a2), ("value", v2)]])] =
      (finalStateOf { columns := [], keys := ks, allow_extra_keys := ae }
        [("Sheet1", [[("key", JValue.str a1), ("value", v1)],
                     [("key", JValue.str a2), ("value", v2)]])]).messages ++
        postCheckMsgs ks (finalStateOf { columns := [], keys := ks, allow_extra_keys := ae }
          [("Sheet1", [[("key", JValue.str a1), ("value", v1)],
                       [("key", JValue.str a2), ("value", v2)]])]).seen := rfl
  rw [hfs] at hconv hmsgs
  dsimp only at hconv hmsgs
  have hnn := set_nested_ne_nil
    (set_nested [] k (convert_type
      (effectiveValue rule [("key", JValue.str a1), ("value", v1)])
      (expectedTypeOf rule [("key", JValue.str a1), ("value", v1)]) 2 k).1) k
    (convert_type v2 (expectedTypeOf rule [("key", JValue.str a2), ("value", v2)]) 3 k).1
  rw [if_neg (by simp only [List.isEmpty_iff]; exact hnn)] at hconv
  refine ⟨_, _, hconv, get_set_nested _ _ _, ?_⟩
  rw [hmsgs]
  simp only [List.filter_append, convert_type_filter_dup, postCheck_filter_dup,
    filter_ite_singleton Diag.isDuplicate _ (Diag.missingRequired 2 k) rfl,
    filter_ite_singleton Diag.isDuplicate _ (Diag.missingRequired 3 k) rfl]
  rfl

/-- Witness for claim C2: rows timeout=30 then timeout=45 under a declared
int rule — the output holds 45 and exactly one duplicate diagnostic. -/
theorem claim_C2_witness :
    ∃ data msgs,
      convert { keys := [("timeout", { type? := some "int" })] }
        [("Sheet1", [[("key", JValue.str "timeout"), ("value", JValue.str "30")],
                     [("key", JValue.str "timeout"), ("value", JValue.str "45")]])] =
        ConvResult.success data msgs ∧
      get_nested data "timeout" =
        some (convert_type (JValue.str "45")
          (expectedTypeOf { type? := some "int" }
            [("key", JValue.str "timeout"), ("value", JValue.str "45")]) 3 "timeout").1 ∧
      (msgs.filter Diag.isDuplicate).length = 1 :=
  claim_C2_last_write_wins [("timeout", { type? := some "int" })] false
    "timeout" "timeout" "timeout" { type? := some "int" }
    (JValue.str "30") (JValue.str "45")
    rfl (by decide) rfl (by decide) rfl rfl rfl rfl
    (fun h => absurd (congrArg pyStr h) (by decide))

/- ### Claim C9 -/

/-- Claim C9: the canonical key is recorded as seen before the extra-key
check, so with allow_extra_keys false the second of two rows sharing the
same undeclared canonical key gets both a duplicate-key diagnostic and a
not-defined-in-schema diagnostic, while the key never reaches the output
(the conversion of just these rows fails with empty data). -/
theorem claim_C9_dup_before_extra
    (ks : List (String × Rule)) (a1 a2 k : String) (v1 v2 : JValue)
    (hs1 : pyStrip a1 = a1) (h1 : a1 ≠ "") (hs2 : pyStrip a2 = a2) (h2 : a2 ≠ "")
    (hr1 : resolveKey (buildAliasToKey ks) a1 = k)
    (hr2 : resolveKey (buildAliasToKey ks) a2 = k)
    (hk : alistGet ks k = none) :
    ∃ msgs,
      convert { columns := [], keys := ks, allow_extra_keys := false }
        [("Sheet1", [[("key", JValue.str a1), ("value", v1)],
                     [("key", JValue.str a2), ("value", v2)]])] =
        ConvResult.failure [] msgs ∧
      Diag.duplicateKey 3 k ∈ msgs ∧ Diag.notInSchema 3 k ∈ msgs := by
  have hrule : (alistGet ks k).getD {} = ({} : Rule) := by rw [hk]; rfl
  have hisnone : (alistGet ks k).isNone = true := by rw [hk]; rfl
  have e1 := fun (st : ConvState) => processRow_resolved ks (buildAliasToKey ks) false 2
    [("key", JValue.str a1), ("value", v1)] st a1 k {} rfl hs1 h1 hr1 hrule
  have e2 := fun (st : ConvState) => processRow_resolved ks (buildAliasToKey ks) false 3
    [("key", JValue.str a2), ("value", v2)] st a2 k {} rfl hs2 h2 hr2 hrule
  have hfs : finalStateOf { columns := [], keys := ks, allow_extra_keys := false }
      [("Sheet1", [[("key", JValue.str a1), ("value", v1)],
                   [("key", JValue.str a2), ("value", v2)]])] =
      processRow ks (buildAliasToKey ks) false 3 [("key", JValue.str a2), ("value", v2)]
        (processRow ks (buildAliasToKey ks) false 2 [("key", JValue.str a1), ("value", v1)]
          ⟨[], [], []⟩) := rfl
  rw [e1, e2] at hfs
  rw [hisnone] at hfs
  simp only [Bool.not_false, Bool.true_and, if_true] at hfs
  dsimp only at hfs
  rw [show seenAdd ([] : List String) k = [k] from rfl,
    show (([] : List String).contains k) = false from rfl,
    (by simp : (([k] : List String).contains k) = true)] at hfs
  simp only [Bool.false_eq_true, if_false, if_true, List.nil_append] at hfs
  have hconv : convert { columns := [], keys := ks, allow_extra_keys := false }
      [("Sheet1", [[("key", JValue.str a1), ("value", v1)],
                   [("key", JValue.str a2), ("value", v2)]])] =
      if (finalStateOf { columns := [], keys := ks, allow_extra_keys := false }
          [("Sheet1", [[("key", JValue.str a1), ("value", v1)],
                       [("key", JValue.str a2), ("value", v2)]])]).config.isEmpty then
        ConvResult.failure [] (allMessagesOf { columns := [], keys := ks, allow_extra_keys := false }
          [("Sheet1", [[("key", JValue.str a1), ("value", v1)],
                       [("key", JValue.str a2), ("value", v2)]])])
      else
        ConvResult.success
          (finalStateOf { columns := [], keys := ks, allow_extra_keys := false }
            [("Sheet1", [[("key", JValue.str a1), ("value", v1)],
                         [("key", JValue.str a2), ("value", v2)]])]).config
          (allMessagesOf { columns := [], keys := ks, allow_extra_keys := false }
            [("Sheet1", [[("key", JValue.str a1), ("value", v1)],
                         [("key", JValue.str a2), ("value", v2)]])]) := rfl
  have hmsgs : allMessagesOf { columns := [], keys := ks, allow_extra_keys := false }
      [("Sheet1", [[("key", JValue.str a1), ("value", v1)],
                   [("key", JValue.str a2), ("value", v2)]])] =
      (finalStateOf { columns := [], keys := ks, allow_extra_keys := false }
        [("Sheet1", [[("key", JValue.str a1), ("value", v1)],
                     [("key", JValue.str a2), ("value", v2)]])]).messages ++
        postCheckMsgs ks (finalStateOf { columns := [], keys := ks, allow_extra_keys := false }
          [("Sheet1", [[("key", JValue.str a1), ("value", v1)],
                       [("key", JValue.str a2), ("value", v2)]])]).seen := rfl
  rw [hfs] at hconv hmsgs
  dsimp only at hconv hmsgs
  rw [if_pos (show (([] : List (String × JValue)).isEmpty) = true from rfl)] at hconv
  refine ⟨_, hconv, ?_, ?_⟩
  · rw [hmsgs]
    simp
  · rw [hmsgs]
    simp

/-- Witness for claim C9: two rows with the undeclared key "x" — the
second gets both diagnostics and the conversion fails with empty data. -/
theorem claim_C9_witness :
    ∃ msgs,
      convert { columns := [], keys := [], allow_extra_keys := false }
        [("Sheet1", [[("key", JValue.str "x"), ("value", JValue.str "1")],
                     [("key", JValue.str "x"), ("value", JValue.str "2")]])] =
        ConvResult.failure [] msgs ∧
      Diag.duplicateKey 3 "x" ∈ msgs ∧ Diag.notInSchema 3 "x" ∈ msgs :=
  claim_C9_dup_before_extra [] "x" "x" "x" (JValue.str "1") (JValue.str "2")
    rfl (by decide) rfl (by decide) rfl rfl rfl

/- ### Membership fact about dictionary lookup -/

theorem alistGet_mem {α : Type} (d : List (String × α)) (k : String) (v : α)
    (h : alistGet d k = some v) : (k, v) ∈ d := by
  induction d with
  | nil => simp [alistGet] at h
  | cons a t ih =>
    obtain ⟨k2, v2⟩ := a
    by_cases hk : k2 = k
    · subst hk
      have h2 : v2 = v := by simpa [alistGet] using h
      subst h2
      exact List.mem_cons_self _ _
    · simp only [alistGet, if_neg hk] at h
      exact List.mem_cons_of_mem _ (ih h)

/- ### Claim C5 -/

/-- Claim C5 counterexample: the convert pipeline does not drop all-empty
rows — an all-empty row (both cells None, built exactly as the convert
endpoint builds rows from the header row) reaches rule processing in
config_schema mode and produces an empty-key diagnostic, contradicting
"such a row produces no diagnostic ... in every conversion mode".
Moreover even parse_excel_to_json keeps an all-empty row once a
"required" column exists, because the empty required cell is normalized
to "no" before the all-empty test. -/
theorem claim_C5_counterexample :
    convert {} [("S", convertBuildRows ["key", "value"] [[JValue.null, JValue.null]])] =
      ConvResult.failure [] [Diag.emptyKey 2] ∧
    parse_excel_rows ["key", "value", "required"] [[JValue.null, JValue.null, JValue.null]] =
      [[("key", JValue.null), ("value", JValue.null), ("required", JValue.str "no")]] :=
  ⟨rfl, rfl⟩

/-- Claim C5 (amended): rows whose (normalized) values are all empty are
dropped only by the legacy parser parse_excel_to_json — every row it
emits has some value that is neither None nor the empty string; the
convert pipeline does not pre-filter rows, and a row whose cells are all
empty reaches the rule engine, where its empty key cell yields exactly
the empty-key diagnostic, no output entry and no other processing. -/
theorem claim_C5_empty_rows :
    (∀ (headers : List String) (raws : List (List JValue)) (r : Row),
      r ∈ parse_excel_rows headers raws → ∃ kv ∈ r, isEmptyCell kv.2 = false) ∧
    (∀ (kr : List (String × Rule)) (atk : List (String × String)) (ae : Bool) (idx : Nat)
       (row : Row) (st : ConvState),
       (∀ kv ∈ row, isEmptyCell kv.2 = true) →
       processRow kr atk ae idx row st =
         { st with messages := st.messages ++ [Diag.emptyKey idx] }) := by
  constructor
  · intro headers raws r hr
    unfold parse_excel_rows at hr
    have hp := List.of_mem_filter hr
    obtain ⟨kv, hkv, hb⟩ := List.any_eq_true.mp hp
    exact ⟨kv, hkv, by simpa using hb⟩
  · intro kr atk ae idx row st hall
    have hkey : isEmptyCell (rowGetD row "key" JValue.null) = true := by
      unfold rowGetD
      cases hg : alistGet row "key" with
      | none => rfl
      | some v => exact hall ("key", v) (alistGet_mem row "key" v hg)
    unfold processRow
    cases hval : rowGetD row "key" JValue.null with
    | null => rw [if_pos (by rfl)]
    | str s =>
      rw [hval] at hkey
      have hs : (s == "") = true := by simpa [isEmptyCell] using hkey
      rw [if_pos (by simp [pyTruthy, hs])]
    | int n => rw [hval] at hkey; exact absurd hkey (by simp [isEmptyCell])
    | bool b => rw [hval] at hkey; exact absurd hkey (by simp [isEmptyCell])
    | obj es => rw [hval] at hkey; exact absurd hkey (by simp [isEmptyCell])

/-- Witness for claim C5 at a concrete all-empty row. -/
theorem claim_C5_witness :
    (∀ kv ∈ ([("key", JValue.null), ("value", JValue.str "")] : Row),
      isEmptyCell kv.2 = true) ∧
    processRow [] [] false 2 [("key", JValue.null), ("value", JValue.str "")] ⟨[], [], []⟩ =
      ⟨[], [], [Diag.emptyKey 2]⟩ := by
  refine ⟨by decide, ?_⟩
  rw [claim_C5_empty_rows.2 [] [] false 2 _ _ (by decide)]
  rfl

end JsonAutomator
